import Mathlib

/-!
Verification of the star-coupler geometry synthesis code
(`src/components/star_coupler.py`, with the angular-pitch variant
`src/components/star_coupler_V2.py`).

The Python module is embedded shallowly over exact rational arithmetic:

* machine floats become `ℚ` (the properties under scrutiny are exact
  identities of the formulas, stated in exact arithmetic);
* the transcendental library calls (`math.cos`, `math.sin`, `math.asin`)
  are abstracted as a `Trig` record of functions on degree-valued
  arguments, because their values are irrational; every theorem that
  needs a fact about them (e.g. the Pythagorean identity) takes it as an
  explicit hypothesis;
* the external polygon-offset primitive (`shapely.buffer`), an opaque
  collaborator per the module boundary, is a function parameter `Buffer`;
* the only run-time failures the builder can hit (`KeyError` from the
  `ports_info` lookups, `ValueError` from `min`/`max` of an empty
  sequence) are modelled with `Except BuildError`.
-/

namespace StarCoupler

/-- A polygon as accumulated on the component: its ordered points and the
fabrication layer tag it is drawn on. -/
structure Polygon where
  points : List (ℚ × ℚ)
  layer : ℤ × ℤ
deriving DecidableEq, Repr

/-- The port dictionaries used inside the taper synthesizer
(`get_taper_polygons_and_ports`): name, center, width, orientation. -/
structure Port where
  name : String
  center : ℚ × ℚ
  width : ℚ
  orientation : ℚ
deriving DecidableEq, Repr

instance : Inhabited Port := ⟨⟨"", (0, 0), 0, 0⟩⟩

/-- A port as stored on the finished component via `c.add_port`. -/
structure PortDetail where
  center : ℚ × ℚ
  width : ℚ
  orientation : ℚ
  layer : ℤ × ℤ
deriving DecidableEq, Repr

instance : Inhabited PortDetail := ⟨⟨(0, 0), 0, 0, (0, 0)⟩⟩

/-- Names of the ports the builder creates: taper ports `o{i}`/`e{i}` and
bus-waveguide ports `i{i}` (constructor `inp`) / `out{i}`. -/
inductive PortName where
  | o (i : ℕ)
  | e (i : ℕ)
  | inp (i : ℕ)
  | out (i : ℕ)
deriving DecidableEq, Repr

/-- The run-time failures reachable in `star_coupler`: a missing key in the
`ports_info` dictionary (Python `KeyError`) and `min()`/`max()` applied to an
empty sequence (Python `ValueError`). -/
inductive BuildError where
  | keyError (name : PortName)
  | valueErrorEmptyMin
deriving DecidableEq, Repr

/-- Tests whether a build failure is a Python `KeyError` (as opposed to the
`ValueError` raised by `min`/`max` on an empty sequence). -/
def BuildError.isKeyErr : BuildError → Bool
  | .keyError _ => true
  | .valueErrorEmptyMin => false

/-- The flat component accumulator (`gf.Component` used as a polygon list
plus a name-to-port map, per the manual-flattening design). -/
structure Component where
  polygons : List Polygon
  ports : List (PortName × PortDetail)
deriving DecidableEq, Repr

instance : Inhabited Component := ⟨⟨[], []⟩⟩

/-- Abstraction of the transcendental library calls. All arguments are in
degrees: `cosd x` stands for `math.cos(math.radians(x))`, `sind x` for
`math.sin(math.radians(x))`, and `asind x` for `math.degrees(math.asin(x))`.
The code only ever composes these functions, so carrying the degree values
through is an exact account of the source. -/
structure Trig where
  cosd : ℚ → ℚ
  sind : ℚ → ℚ
  asind : ℚ → ℚ

/-- The external round-joined outward polygon-offset primitive
(`shapely.buffer`), consumed as an opaque collaborator: it receives the core
points and the offset distance and returns the offset boundary points. -/
abbrev Buffer := List (ℚ × ℚ) → ℚ → List (ℚ × ℚ)

/-- Round-half-to-even, the rounding mode of `numpy.round`. -/
def np_round (x : ℚ) : ℤ :=
  let f := ⌊x⌋
  let frac := x - f
  if frac < 1 / 2 then f
  else if 1 / 2 < frac then f + 1
  else if Even f then f else f + 1

/-- Snap one coordinate to the design grid: divide by the grid pitch, round,
multiply back (`np.round(np.asarray(center) / grid) * grid`). -/
def snapCoord (grid x : ℚ) : ℚ :=
  (np_round (x / grid) : ℚ) * grid

/-- Snap a 2-D center to the design grid (the builder's `_snap_center`). -/
def snapPoint (grid : ℚ) (p : ℚ × ℚ) : ℚ × ℚ :=
  (snapCoord grid p.1, snapCoord grid p.2)

/-- Model of `np.clip(x, lo, hi)`. -/
def clip (x lo hi : ℚ) : ℚ := min (max x lo) hi

/-- Model of `np.linspace(a, b, n)`. -/
def linspace (a b : ℚ) (n : ℕ) : List ℚ :=
  match n with
  | 0 => []
  | 1 => [a]
  | _ => (List.range n).map (fun i => a + (b - a) * i / ((n : ℚ) - 1))

/-- Python `min` over a list, `none` on the empty list (where Python raises
`ValueError`). -/
def listMin : List ℚ → Option ℚ
  | [] => none
  | x :: xs => some (xs.foldl min x)

/-- Python `max` over a list, `none` on the empty list. -/
def listMax : List ℚ → Option ℚ
  | [] => none
  | x :: xs => some (xs.foldl max x)

/-- The centered channel offset index `np.arange(n) - (n - 1) / 2` at
position `i`. -/
def offsets (n i : ℕ) : ℚ := (i : ℚ) - ((n : ℚ) - 1) / 2

/-- Linear-pitch channel Y position (`star_coupler.py`:
`y_positions = offsets * pitch`). -/
def y_position_lin (n : ℕ) (pitch : ℚ) (i : ℕ) : ℚ := offsets n i * pitch

/-- Angular-pitch channel Y position of `star_coupler_V2.py`
(`y = radius_eff * sin(deg2rad(offsets * angle))`), with `sind` standing for
`sin ∘ deg2rad`. -/
def y_position_ang (sind : ℚ → ℚ) (radius_eff angle : ℚ) (n i : ℕ) : ℚ :=
  radius_eff * sind (offsets n i * angle)

/-- The angle normalizer `_normalize_angle`: Python `angle_deg % 360`
(remainder with the divisor's sign, i.e. `x - 360 * ⌊x / 360⌋`) followed by
a subtraction of 360 when the remainder is ≥ 180, landing in [-180, 180). -/
def _normalize_angle (angle_deg : ℚ) : ℚ :=
  let angle := angle_deg - 360 * ⌊angle_deg / 360⌋
  if 180 ≤ angle then angle - 360 else angle

/-- The FPR slab polygon synthesizer `get_fpr_slab_polygons` of
`star_coupler.py` (single-radius variant): effective radius clamped to at
least the rectangle's half-height, half-angle `alpha` obtained as arcsine of
the clamped ratio, arcs sampled by `linspace`, the whole outline recentered
on the bounding box, and an optional buffered cladding polygon. -/
def get_fpr_slab_polygons (T : Trig) (buffer : Buffer)
    (radius width_rect height_rect : ℚ) (layer : ℤ × ℤ) (npoints : ℕ)
    (clad_layer : Option (ℤ × ℤ)) (clad_offset : ℚ) : List Polygon :=
  let half_h := height_rect / 2
  let radius := max radius half_h
  let alpha := T.asind (min 1 (half_h / radius))
  let theta := linspace alpha (-alpha) npoints
  let cx_right := width_rect / 2 - radius * T.cosd alpha
  let cx_left := -width_rect / 2 + radius * T.cosd alpha
  let arc_right := theta.map (fun t => (cx_right + radius * T.cosd t, radius * T.sind t))
  let arc_left := theta.map (fun t => (cx_left - radius * T.cosd t, radius * T.sind t))
  let core0 := arc_right ++ [(-width_rect / 2, -half_h), (-width_rect / 2, half_h)]
      ++ arc_left.reverse ++ [(width_rect / 2, half_h), (width_rect / 2, -half_h)]
  let xs := core0.map Prod.fst
  let ys := core0.map Prod.snd
  let dx := -(((listMin xs).getD 0) + ((listMax xs).getD 0)) / 2
  let dy := -(((listMin ys).getD 0) + ((listMax ys).getD 0)) / 2
  let core_points := core0.map (fun p => (p.1 + dx, p.2 + dy))
  let polys := [Polygon.mk core_points layer]
  match clad_layer with
  | some cl =>
      if 0 < clad_offset then polys ++ [Polygon.mk (buffer core_points clad_offset) cl]
      else polys
  | none => polys

/-- The taper synthesizer `get_taper_polygons_and_ports`: a trapezoidal core
polygon centered at the origin, an optional buffered cladding polygon, and
the two end-port dictionaries `o1` (narrow end, orientation 180) and `o2`
(wide end, orientation 0). -/
def get_taper_polygons_and_ports (buffer : Buffer) (length width1 width2 : ℚ)
    (clad_layer : Option (ℤ × ℤ)) (clad_offset : ℚ)
    (pdk_taper_layer : ℤ × ℤ) : List Polygon × List Port :=
  let core_points := [(-length / 2, -width1 / 2), (length / 2, -width2 / 2),
      (length / 2, width2 / 2), (-length / 2, width1 / 2)]
  let polys := [Polygon.mk core_points pdk_taper_layer]
  let polys := match clad_layer with
    | some cl =>
        if 0 < clad_offset then polys ++ [Polygon.mk (buffer core_points clad_offset) cl]
        else polys
    | none => polys
  let port1 : Port := ⟨"o1", (-length / 2, 0), width1, 180⟩
  let port2 : Port := ⟨"o2", (length / 2, 0), width2, 0⟩
  (polys, [port1, port2])

/-- The rigid-transform helper `_transform_points_and_port`: rotate every
polygon point and the port center by the rotation matrix of `rotation_deg`,
translate by `(move_x, move_y)`, and normalize the composed port
orientation into [-180, 180). -/
def _transform_points_and_port (T : Trig) (points_list : List (List (ℚ × ℚ)))
    (port : Port) (rotation_deg move_x move_y : ℚ) :
    List (List (ℚ × ℚ)) × Port :=
  let ca := T.cosd rotation_deg
  let sa := T.sind rotation_deg
  let tf := fun (p : ℚ × ℚ) => (ca * p.1 - sa * p.2 + move_x, sa * p.1 + ca * p.2 + move_y)
  let transformed := points_list.map (List.map tf)
  let new_port : Port :=
    ⟨port.name, tf port.center, port.width, _normalize_angle (port.orientation + rotation_deg)⟩
  (transformed, new_port)

/-- The full parameter record of `star_coupler` (single-radius variant),
with the source's default values; `grid` is the active PDK's manufacturing
grid obtained by `getattr(gf.get_active_pdk(), "grid", 1e-3)`. -/
structure Config where
  n_inputs : ℕ := 5
  n_outputs : ℕ := 4
  pitch_inputs : ℚ := 263 / 50
  pitch_outputs : ℚ := 71 / 20
  angle_inputs : Bool := true
  angle_outputs : Bool := true
  taper_length : ℚ := 40
  taper_wide : ℚ := 3
  wg_width : ℚ := 1 / 2
  radius : ℚ := 130
  width_rect : ℚ := 4027 / 50
  height_rect : ℚ := 19103 / 125
  layer : ℤ × ℤ := (1, 0)
  npoints : ℕ := 361
  taper_overlap : ℚ := 1 / 2
  clad_layer : Option (ℤ × ℤ) := some (111, 0)
  clad_offset : ℚ := 3
  input_wg_length : ℚ := 10
  output_wg_length : ℚ := 10
  wg_overlap : ℚ := 1 / 50
  grid : ℚ := 1 / 1000

/-- The effective arc radius used by the builder: the requested radius
clamped to at least the rectangle's half-height
(`radius_eff = max(radius, height_rect / 2)`). -/
def slab_radius_eff (radius height_rect : ℚ) : ℚ :=
  max radius (height_rect / 2)

/-- The argument handed to the arcsine when the builder computes the arc's
half-angle: `min(1.0, half_h / radius_eff)`. -/
def slab_asind_arg (radius height_rect : ℚ) : ℚ :=
  min 1 (height_rect / 2 / slab_radius_eff radius height_rect)

/-- One placed output taper (right side, body of the loop in step 3 of
`star_coupler`): the channel's Y from the linear pitch, `theta` from the
clamped arcsine, the placement rotation `orient - 180`, the o2-alignment
translation, the overlap shift toward the slab, and the transformed
polygons plus the snapped public port `e{i+1}`. -/
def output_channel (T : Trig) (buffer : Buffer) (cfg : Config) (i : ℕ) :
    List Polygon × (PortName × PortDetail) :=
  let radius_eff := slab_radius_eff cfg.radius cfg.height_rect
  let alpha := T.asind (slab_asind_arg cfg.radius cfg.height_rect)
  let taper := get_taper_polygons_and_ports buffer cfg.taper_length cfg.wg_width
      cfg.taper_wide cfg.clad_layer cfg.clad_offset cfg.layer
  let taper_port_o1 := ((taper.2).find? (fun p => p.name == "o1")).getD default
  let taper_port_o2 := ((taper.2).find? (fun p => p.name == "o2")).getD default
  let cx_right := cfg.width_rect / 2 - radius_eff * T.cosd alpha
  let y := y_position_lin cfg.n_outputs cfg.pitch_outputs i
  let theta := T.asind (clip (y / radius_eff) (-1) 1)
  let x_arc := cx_right + radius_eff * T.cosd theta
  let orient_deg := if cfg.angle_outputs then theta else 0
  let rotation_deg := orient_deg - 180
  let move_x0 := x_arc - taper_port_o2.center.1 * T.cosd rotation_deg
  let move_y0 := y - taper_port_o2.center.1 * T.sind rotation_deg
  let move_x := if cfg.taper_overlap ≠ 0 then move_x0 - cfg.taper_overlap * T.cosd theta
      else move_x0
  let move_y := if cfg.taper_overlap ≠ 0 then move_y0 - cfg.taper_overlap * T.sind theta
      else move_y0
  let tr := _transform_points_and_port T (taper.1.map Polygon.points) taper_port_o1
      rotation_deg move_x move_y
  let polys := (tr.1.zip taper.1).map (fun q => Polygon.mk q.1 q.2.layer)
  let detail : PortDetail :=
    ⟨snapPoint cfg.grid (tr.2).center, (tr.2).width, (tr.2).orientation, cfg.layer⟩
  (polys, (PortName.e (i + 1), detail))

/-- One placed input taper (left side, body of the loop in step 4 of
`star_coupler`): as `output_channel`, but on the left arc center with
outward normal `180 - theta` and the overlap shift sign flipped; the public
port is `o{i+1}`. -/
def input_channel (T : Trig) (buffer : Buffer) (cfg : Config) (i : ℕ) :
    List Polygon × (PortName × PortDetail) :=
  let radius_eff := slab_radius_eff cfg.radius cfg.height_rect
  let alpha := T.asind (slab_asind_arg cfg.radius cfg.height_rect)
  let taper := get_taper_polygons_and_ports buffer cfg.taper_length cfg.wg_width
      cfg.taper_wide cfg.clad_layer cfg.clad_offset cfg.layer
  let taper_port_o1 := ((taper.2).find? (fun p => p.name == "o1")).getD default
  let taper_port_o2 := ((taper.2).find? (fun p => p.name == "o2")).getD default
  let cx_left := -cfg.width_rect / 2 + radius_eff * T.cosd alpha
  let y := y_position_lin cfg.n_inputs cfg.pitch_inputs i
  let theta := T.asind (clip (y / radius_eff) (-1) 1)
  let x_arc := cx_left - radius_eff * T.cosd theta
  let orient_deg := if cfg.angle_inputs then 180 - theta else 180
  let rotation_deg := orient_deg - 180
  let move_x0 := x_arc - taper_port_o2.center.1 * T.cosd rotation_deg
  let move_y0 := y - taper_port_o2.center.1 * T.sind rotation_deg
  let move_x := if cfg.taper_overlap ≠ 0 then move_x0 + cfg.taper_overlap * T.cosd theta
      else move_x0
  let move_y := if cfg.taper_overlap ≠ 0 then move_y0 + cfg.taper_overlap * T.sind theta
      else move_y0
  let tr := _transform_points_and_port T (taper.1.map Polygon.points) taper_port_o1
      rotation_deg move_x move_y
  let polys := (tr.1.zip taper.1).map (fun q => Polygon.mk q.1 q.2.layer)
  let detail : PortDetail :=
    ⟨snapPoint cfg.grid (tr.2).center, (tr.2).width, (tr.2).orientation, cfg.layer⟩
  (polys, (PortName.o (i + 1), detail))

/-- The taper-stage port map: the ports accumulated on the component after
steps 3 and 4 (`e1..e{n_outputs}` added first, then `o1..o{n_inputs}`). -/
def taper_stage_ports (T : Trig) (buffer : Buffer) (cfg : Config) :
    List (PortName × PortDetail) :=
  (List.range cfg.n_outputs).map (fun i => (output_channel T buffer cfg i).2)
    ++ (List.range cfg.n_inputs).map (fun i => (input_channel T buffer cfg i).2)

/-- The fixed port-name list the builder probes when it assembles
`ports_info`: `['o1', ..., 'o5', 'e1', ..., 'e4']`. -/
def ports_info_name_list : List PortName :=
  [.o 1, .o 2, .o 3, .o 4, .o 5, .e 1, .e 2, .e 3, .e 4]

/-- Dictionary access on an association list of ports. -/
def lookupPort (ports : List (PortName × PortDetail)) (n : PortName) :
    Option PortDetail :=
  (ports.find? (fun q => q.1 == n)).map (fun q => q.2)

/-- The `ports_info` dictionary: every name of the fixed list that is
present among the component's ports, with its stored center, width and
orientation. -/
def mk_ports_info (ports : List (PortName × PortDetail)) :
    List (PortName × PortDetail) :=
  ports_info_name_list.filterMap
    (fun n => (lookupPort ports n).map (fun d => (n, d)))

/-- Look up a whole list of names in `ports_info`, failing with the Python
`KeyError` of the first missing name (the evaluation order of the list
comprehensions in steps 5 and 6). -/
def lookupMany (info : List (PortName × PortDetail)) :
    List PortName → Except BuildError (List PortDetail)
  | [] => .ok []
  | n :: ns =>
      match lookupPort info n with
      | none => .error (.keyError n)
      | some d => (lookupMany info ns).map (fun ds => d :: ds)

/-- The rectangle of one input bus waveguide (step 5): anchored
`wg_overlap` inside the taper along the port's orientation, with its west
edge at the common `x_start = target_x_end - input_wg_length`. -/
def input_bus_points (T : Trig) (cfg : Config) (target_x_end : ℚ)
    (port : PortDetail) : List (ℚ × ℚ) :=
  let x_end := port.center.1 - cfg.wg_overlap * T.cosd port.orientation
  let y_end := port.center.2 - cfg.wg_overlap * T.sind port.orientation
  let x_start := target_x_end - cfg.input_wg_length
  [(x_start, y_end - cfg.wg_width / 2), (x_end, y_end - cfg.wg_width / 2),
   (x_end, y_end + cfg.wg_width / 2), (x_start, y_end + cfg.wg_width / 2)]

/-- The rectangle of one output bus waveguide (step 6): anchored
`wg_overlap` inside the taper, with its east edge at the common
`target_x_end`. -/
def output_bus_points (T : Trig) (cfg : Config) (target_x_end : ℚ)
    (port : PortDetail) : List (ℚ × ℚ) :=
  let x_start := port.center.1 - cfg.wg_overlap * T.cosd port.orientation
  let y_start := port.center.2 - cfg.wg_overlap * T.sind port.orientation
  let x_end := target_x_end
  [(x_start, y_start - cfg.wg_width / 2), (x_end, y_start - cfg.wg_width / 2),
   (x_end, y_start + cfg.wg_width / 2), (x_start, y_start + cfg.wg_width / 2)]

/-- The polygons of one bus waveguide: the core rectangle, then the
buffered cladding when a cladding layer is configured. -/
def bus_polygons (buffer : Buffer) (cfg : Config) (pts : List (ℚ × ℚ)) :
    List Polygon :=
  let polys := [Polygon.mk pts cfg.layer]
  match cfg.clad_layer with
  | some cl =>
      if 0 < cfg.clad_offset then polys ++ [Polygon.mk (buffer pts cfg.clad_offset) cl]
      else polys
  | none => polys

/-- One input bus waveguide with its `i{i+1}` port: the port sits at the
common west edge, snapped to the grid, with orientation fixed to 180. -/
def input_bus_channel (T : Trig) (buffer : Buffer) (cfg : Config)
    (target_x_end : ℚ) (i : ℕ) (port : PortDetail) :
    List Polygon × (PortName × PortDetail) :=
  let y_end := port.center.2 - cfg.wg_overlap * T.sind port.orientation
  let x_start := target_x_end - cfg.input_wg_length
  let polys := bus_polygons buffer cfg (input_bus_points T cfg target_x_end port)
  (polys, (PortName.inp (i + 1),
    ⟨snapPoint cfg.grid (x_start, y_end), cfg.wg_width, 180, cfg.layer⟩))

/-- One output bus waveguide with its `out{i+1}` port: the port sits at the
common east edge `target_x_end`, snapped to the grid, with orientation 0. -/
def output_bus_channel (T : Trig) (buffer : Buffer) (cfg : Config)
    (target_x_end : ℚ) (i : ℕ) (port : PortDetail) :
    List Polygon × (PortName × PortDetail) :=
  let polys := bus_polygons buffer cfg (output_bus_points T cfg target_x_end port)
  (polys, (PortName.out (i + 1),
    ⟨snapPoint cfg.grid (target_x_end, port.center.2), cfg.wg_width, 0, cfg.layer⟩))

/-- Assembly of the finished component once the `ports_info` lookups and
the `min`/`max` reductions have succeeded: slab polygons, output tapers,
input tapers, input bus waveguides, output bus waveguides, and the port
map in insertion order. -/
def star_coupler_assemble (T : Trig) (buffer : Buffer) (cfg : Config)
    (inDetails outDetails : List PortDetail) (min_x_in max_x_out : ℚ) :
    Component :=
  let slab := get_fpr_slab_polygons T buffer cfg.radius cfg.width_rect cfg.height_rect
      cfg.layer cfg.npoints cfg.clad_layer cfg.clad_offset
  let outs := (List.range cfg.n_outputs).map (fun i => output_channel T buffer cfg i)
  let ins := (List.range cfg.n_inputs).map (fun i => input_channel T buffer cfg i)
  let target_in := min_x_in - cfg.wg_overlap
  let inBus := ((List.range cfg.n_inputs).zip inDetails).map
      (fun q => input_bus_channel T buffer cfg target_in q.1 q.2)
  let target_out := max_x_out + cfg.wg_overlap + cfg.output_wg_length
  let outBus := ((List.range cfg.n_outputs).zip outDetails).map
      (fun q => output_bus_channel T buffer cfg target_out q.1 q.2)
  { polygons := slab ++ (outs.map Prod.fst).flatten ++ (ins.map Prod.fst).flatten
      ++ (inBus.map Prod.fst).flatten ++ (outBus.map Prod.fst).flatten,
    ports := (outs.map Prod.snd) ++ (ins.map Prod.snd)
      ++ (inBus.map Prod.snd) ++ (outBus.map Prod.snd) }

/-- The complete `star_coupler` build (single-radius variant): place the
tapers, collect `ports_info` over the fixed name list, look up every
channel's taper port (Python `KeyError` when a name is missing), reduce
with `min`/`max` (Python `ValueError` on an empty sequence), and assemble
the flat component. -/
def star_coupler_model (T : Trig) (buffer : Buffer) (cfg : Config) :
    Except BuildError Component :=
  let info := mk_ports_info (taper_stage_ports T buffer cfg)
  let inNames := (List.range cfg.n_inputs).map (fun i => PortName.o (i + 1))
  match lookupMany info inNames with
  | .error err => .error err
  | .ok inDetails =>
      match listMin (inDetails.map (fun d => d.center.1)) with
      | none => .error .valueErrorEmptyMin
      | some min_x_in =>
          let outNames := (List.range cfg.n_outputs).map (fun i => PortName.e (i + 1))
          match lookupMany info outNames with
          | .error err => .error err
          | .ok outDetails =>
              match listMax (outDetails.map (fun d => d.center.1)) with
              | none => .error .valueErrorEmptyMin
              | some max_x_out =>
                  .ok (star_coupler_assemble T buffer cfg inDetails outDetails
                    min_x_in max_x_out)

/-- A concrete trig instance for evaluation witnesses: the values of
cosine, sine and arcsine at 0 extended constantly (the claims evaluated
with it do not depend on the trig values). -/
def T0 : Trig := ⟨fun _ => 1, fun _ => 0, fun _ => 0⟩

/-- A concrete buffer instance for evaluation witnesses: returns the core
boundary unchanged (the claims evaluated with it do not depend on the
offset boundary's points). -/
def buffer0 : Buffer := fun pts _ => pts

section Lemmas

/-- The remainder `x - 360⌊x/360⌋` computed by `_normalize_angle` lies in
[0, 360). -/
theorem mod360_bounds (x : ℚ) :
    0 ≤ x - 360 * ⌊x / 360⌋ ∧ x - 360 * ⌊x / 360⌋ < 360 := by
  have h1 : ((⌊x / 360⌋ : ℚ)) ≤ x / 360 := Int.floor_le _
  have h2 : x / 360 < (⌊x / 360⌋ : ℚ) + 1 := Int.lt_floor_add_one _
  constructor <;> nlinarith

/-- The value of `_normalize_angle` always lands in [-180, 180). -/
theorem normalize_angle_mem (x : ℚ) :
    -180 ≤ _normalize_angle x ∧ _normalize_angle x < 180 := by
  obtain ⟨h1, h2⟩ := mod360_bounds x
  simp only [_normalize_angle]
  split_ifs with h
  · constructor <;> linarith
  · constructor <;> linarith

/-- The normalizer `_normalize_angle` fixes every value already in [-180, 180). -/
theorem normalize_angle_fixed (y : ℚ) (h1 : -180 ≤ y) (h2 : y < 180) :
    _normalize_angle y = y := by
  simp only [_normalize_angle]
  rcases le_or_lt 0 y with hy | hy
  · have hf : ⌊y / 360⌋ = 0 := by
      rw [Int.floor_eq_zero_iff, Set.mem_Ico]
      constructor <;> [positivity; linarith]
    rw [hf]
    have : ¬ (180 : ℚ) ≤ y - 360 * ((0 : ℤ) : ℚ) := by push_cast; linarith
    rw [if_neg this]
    push_cast
    ring
  · have hf : ⌊y / 360⌋ = -1 := by
      rw [Int.floor_eq_iff]
      push_cast
      constructor <;> linarith
    rw [hf]
    have : (180 : ℚ) ≤ y - 360 * ((-1 : ℤ) : ℚ) := by push_cast; linarith
    rw [if_pos this]
    push_cast
    ring

end Lemmas

/-- C4: for every angle `x`, `_normalize_angle x` lies in [-180, 180);
`_normalize_angle` is idempotent; `_normalize_angle 353.374 = -6.626`
and `_normalize_angle 180 = -180`. -/
theorem normalize_angle_spec :
    (∀ x : ℚ, -180 ≤ _normalize_angle x ∧ _normalize_angle x < 180) ∧
    (∀ x : ℚ, _normalize_angle (_normalize_angle x) = _normalize_angle x) ∧
    _normalize_angle (353374 / 1000) = -(6626 / 1000) ∧
    _normalize_angle 180 = -180 := by
  refine ⟨normalize_angle_mem, ?_, ?_, ?_⟩
  · intro x
    obtain ⟨h1, h2⟩ := normalize_angle_mem x
    exact normalize_angle_fixed _ h1 h2
  · have hf : ⌊(353374 / 1000 : ℚ) / 360⌋ = 0 := by
      rw [Int.floor_eq_zero_iff, Set.mem_Ico]
      norm_num
    simp only [_normalize_angle, hf]
    norm_num
  · have hf : ⌊(180 : ℚ) / 360⌋ = 0 := by
      rw [Int.floor_eq_zero_iff, Set.mem_Ico]
      norm_num
    simp only [_normalize_angle, hf]
    norm_num

/-- C5: the slab synthesizer uses `max(radius, height/2)` as effective
radius, so it is at least the half-height, and the arcsine argument
`min(1, half_h / radius_eff)` never leaves [-1, 1]: the half-angle
computation cannot raise a domain error. -/
theorem slab_arcsin_domain_safe (radius height_rect : ℚ)
    (h : 0 < height_rect) :
    slab_radius_eff radius height_rect = max radius (height_rect / 2) ∧
    height_rect / 2 ≤ slab_radius_eff radius height_rect ∧
    -1 ≤ slab_asind_arg radius height_rect ∧
    slab_asind_arg radius height_rect ≤ 1 := by
  have hr : 0 < slab_radius_eff radius height_rect :=
    lt_of_lt_of_le (by linarith) (le_max_right _ _)
  have harg : 0 < height_rect / 2 / slab_radius_eff radius height_rect :=
    div_pos (by linarith) hr
  refine ⟨rfl, le_max_right _ _, ?_, min_le_left _ _⟩
  unfold slab_asind_arg
  have : (-1 : ℚ) ≤ height_rect / 2 / slab_radius_eff radius height_rect := by linarith
  exact le_min (by norm_num) this

/-- Witness for C5 at the reference rectangle height 152.824 µm and
radius 130 µm. -/
theorem slab_arcsin_domain_safe_witness :
    (0 : ℚ) < 19103 / 125 ∧
    (slab_radius_eff 130 (19103 / 125) = max 130 ((19103 : ℚ) / 125 / 2) ∧
      (19103 : ℚ) / 125 / 2 ≤ slab_radius_eff 130 (19103 / 125) ∧
      -1 ≤ slab_asind_arg 130 (19103 / 125) ∧
      slab_asind_arg 130 (19103 / 125) ≤ 1) :=
  ⟨by norm_num, slab_arcsin_domain_safe 130 (19103 / 125) (by norm_num)⟩

/-- C7: for every taper length L > 0 and end widths, the taper synthesizer
produces the trapezoidal core polygon with vertices
(-L/2, -w1/2), (L/2, -w2/2), (L/2, w2/2), (-L/2, w1/2) as its first
polygon (its only polygon when no cladding is requested), a port `o1` at
(-L/2, 0) of width w1 and orientation 180, and a port `o2` at (L/2, 0) of
width w2 and orientation 0. -/
theorem taper_polygons_and_ports_spec (buffer : Buffer) (L w1 w2 : ℚ)
    (cl : Option (ℤ × ℤ)) (co : ℚ) (ly : ℤ × ℤ) (hL : 0 < L) :
    (get_taper_polygons_and_ports buffer L w1 w2 cl co ly).1.head? =
      some (Polygon.mk [(-L / 2, -w1 / 2), (L / 2, -w2 / 2),
        (L / 2, w2 / 2), (-L / 2, w1 / 2)] ly) ∧
    (get_taper_polygons_and_ports buffer L w1 w2 none co ly).1 =
      [Polygon.mk [(-L / 2, -w1 / 2), (L / 2, -w2 / 2),
        (L / 2, w2 / 2), (-L / 2, w1 / 2)] ly] ∧
    (get_taper_polygons_and_ports buffer L w1 w2 cl co ly).2 =
      [⟨"o1", (-L / 2, 0), w1, 180⟩, ⟨"o2", (L / 2, 0), w2, 0⟩] := by
  refine ⟨?_, rfl, rfl⟩
  rcases cl with _ | c
  · rfl
  · simp only [get_taper_polygons_and_ports]
    split_ifs <;> rfl

/-- Witness for C7 at the default taper (length 40, widths 0.5 and 3). -/
theorem taper_polygons_and_ports_spec_witness :
    (0 : ℚ) < 40 ∧
    (get_taper_polygons_and_ports buffer0 40 (1 / 2) 3 (some (111, 0)) 3
        (1, 0)).2 =
      [⟨"o1", (-(40 : ℚ) / 2, 0), 1 / 2, 180⟩, ⟨"o2", ((40 : ℚ) / 2, 0), 3, 0⟩] :=
  ⟨by norm_num,
    (taper_polygons_and_ports_spec buffer0 40 (1 / 2) 3 (some (111, 0)) 3
      (1, 0) (by norm_num)).2.2⟩

/-- C8: for every even channel count with the default symmetric
configuration, channel i and channel N-1-i sit at Y positions of equal
magnitude and opposite sign — for the linear-pitch placement of
`star_coupler.py` and, given any odd sine, for the angular-pitch placement
of `star_coupler_V2.py`. -/
theorem channel_y_symmetric (n i : ℕ) (pitch : ℚ) (hn : Even n)
    (hi : i < n) :
    y_position_lin n pitch (n - 1 - i) = -y_position_lin n pitch i ∧
    ∀ (sind : ℚ → ℚ), (∀ t, sind (-t) = -sind t) →
      ∀ radius_eff angle : ℚ,
        y_position_ang sind radius_eff angle n (n - 1 - i) =
          -y_position_ang sind radius_eff angle n i := by
  have h1i : i ≤ n - 1 := by omega
  have h1n : 1 ≤ n := by omega
  have hoff : offsets n (n - 1 - i) = -offsets n i := by
    unfold offsets
    rw [Nat.cast_sub h1i, Nat.cast_sub h1n, Nat.cast_one]
    ring
  constructor
  · unfold y_position_lin
    rw [hoff]
    ring
  · intro sind hodd radius_eff angle
    unfold y_position_ang
    rw [hoff, neg_mul, hodd]
    ring

/-- Witness for C8 at N = 4 channels, default output pitch 3.55, i = 0
against i = 3. -/
theorem channel_y_symmetric_witness :
    Even 4 ∧ 0 < 4 ∧
    y_position_lin 4 (71 / 20) (4 - 1 - 0) = -y_position_lin 4 (71 / 20) 0 :=
  ⟨by decide, by decide,
    (channel_y_symmetric 4 0 (71 / 20) (by decide) (by decide)).1⟩

/-- The center of taper port k (0 for `o1`, 1 for `o2`) after the
placement engine's rigid transform `_transform_points_and_port`. -/
def transformed_taper_port_center (T : Trig) (buffer : Buffer)
    (L w1 w2 rot mx my co : ℚ) (cl : Option (ℤ × ℤ)) (ly : ℤ × ℤ)
    (k : ℕ) : ℚ × ℚ :=
  ((_transform_points_and_port T []
      (((get_taper_polygons_and_ports buffer L w1 w2 cl co ly).2).getD k
        default) rot mx my).2).center

/-- A fixed cosine/sine pair satisfying the Pythagorean identity, used by
evaluation witnesses. -/
def T345 : Trig := ⟨fun _ => 3 / 5, fun _ => 4 / 5, fun _ => 0⟩

/-- C9: the rigid transform applied by the placement engine preserves the
distance between the taper's two port centers: for any rotation whose
cosine/sine pair satisfies the Pythagorean identity and any translation,
the transformed `o1` and `o2` centers are exactly the taper length apart
(their squared distance equals that of the untransformed centers
(-L/2, 0) and (L/2, 0)). -/
theorem transform_preserves_port_distance (T : Trig) (buffer : Buffer)
    (L w1 w2 rot mx my co : ℚ) (cl : Option (ℤ × ℤ)) (ly : ℤ × ℤ)
    (hpyth : T.cosd rot ^ 2 + T.sind rot ^ 2 = 1) (hL : 0 ≤ L) :
    (((transformed_taper_port_center T buffer L w1 w2 rot mx my co cl ly 0).1 -
          (transformed_taper_port_center T buffer L w1 w2 rot mx my co cl ly 1).1) ^ 2 +
        ((transformed_taper_port_center T buffer L w1 w2 rot mx my co cl ly 0).2 -
          (transformed_taper_port_center T buffer L w1 w2 rot mx my co cl ly 1).2) ^ 2 :
      ℚ) = ((-L / 2 - L / 2) ^ 2 + ((0 : ℚ) - 0) ^ 2 : ℚ) ∧
    Real.sqrt
        ((((transformed_taper_port_center T buffer L w1 w2 rot mx my co cl ly 0).1 -
              (transformed_taper_port_center T buffer L w1 w2 rot mx my co cl ly 1).1) ^ 2 +
            ((transformed_taper_port_center T buffer L w1 w2 rot mx my co cl ly 0).2 -
              (transformed_taper_port_center T buffer L w1 w2 rot mx my co cl ly 1).2) ^ 2 :
          ℚ) : ℝ) = (L : ℝ) := by
  have hq :
      (((transformed_taper_port_center T buffer L w1 w2 rot mx my co cl ly 0).1 -
            (transformed_taper_port_center T buffer L w1 w2 rot mx my co cl ly 1).1) ^ 2 +
          ((transformed_taper_port_center T buffer L w1 w2 rot mx my co cl ly 0).2 -
            (transformed_taper_port_center T buffer L w1 w2 rot mx my co cl ly 1).2) ^ 2 :
        ℚ) = L ^ 2 := by
    simp only [transformed_taper_port_center, get_taper_polygons_and_ports,
      _transform_points_and_port, List.getD_cons_zero, List.getD_cons_succ]
    linear_combination (L ^ 2) * hpyth
  constructor
  · rw [hq]
    ring
  · rw [hq]
    push_cast
    exact Real.sqrt_sq (by exact_mod_cast hL)

/-- Witness for C9 with the 3-4-5 rotation cosine/sine pair, taper
length 40, translation (7, -2). -/
theorem transform_preserves_port_distance_witness :
    (T345.cosd 30 ^ 2 + T345.sind 30 ^ 2 = 1) ∧ (0 : ℚ) ≤ 40 ∧
    Real.sqrt
        ((((transformed_taper_port_center T345 buffer0 40 (1 / 2) 3 30 7 (-2) 0 none (1, 0) 0).1 -
              (transformed_taper_port_center T345 buffer0 40 (1 / 2) 3 30 7 (-2) 0 none (1, 0) 1).1) ^ 2 +
            ((transformed_taper_port_center T345 buffer0 40 (1 / 2) 3 30 7 (-2) 0 none (1, 0) 0).2 -
              (transformed_taper_port_center T345 buffer0 40 (1 / 2) 3 30 7 (-2) 0 none (1, 0) 1).2) ^ 2 :
          ℚ) : ℝ) = ((40 : ℚ) : ℝ) :=
  ⟨by norm_num [T345], by norm_num,
    (transform_preserves_port_distance T345 buffer0 40 (1 / 2) 3 30 7 (-2) 0
      none (1, 0) (by norm_num [T345]) (by norm_num)).2⟩

section ModelLemmas

/-- The public port of an output channel: name `e{i+1}`, center snapped to
the grid, width the taper's narrow width, orientation a `_normalize_angle`
value, on the core layer. -/
theorem output_channel_snd_eq (T : Trig) (buffer : Buffer) (cfg : Config)
    (i : ℕ) :
    ∃ p r, (output_channel T buffer cfg i).2 =
      (PortName.e (i + 1),
        ⟨snapPoint cfg.grid p, cfg.wg_width, _normalize_angle r, cfg.layer⟩) :=
  ⟨_, _, rfl⟩

/-- The public port of an input channel: name `o{i+1}`, center snapped to
the grid, width the taper's narrow width, orientation a `_normalize_angle`
value, on the core layer. -/
theorem input_channel_snd_eq (T : Trig) (buffer : Buffer) (cfg : Config)
    (i : ℕ) :
    ∃ p r, (input_channel T buffer cfg i).2 =
      (PortName.o (i + 1),
        ⟨snapPoint cfg.grid p, cfg.wg_width, _normalize_angle r, cfg.layer⟩) :=
  ⟨_, _, rfl⟩

/-- The public port of an input bus waveguide, by definition: name
`i{i+1}`, snapped center at the common west-edge X, orientation 180. -/
theorem input_bus_channel_snd_eq (T : Trig) (buffer : Buffer) (cfg : Config)
    (tgt : ℚ) (i : ℕ) (port : PortDetail) :
    (input_bus_channel T buffer cfg tgt i port).2 =
      (PortName.inp (i + 1),
        ⟨snapPoint cfg.grid (tgt - cfg.input_wg_length,
            port.center.2 - cfg.wg_overlap * T.sind port.orientation),
          cfg.wg_width, 180, cfg.layer⟩) :=
  rfl

/-- The public port of an output bus waveguide, by definition: name
`out{i+1}`, snapped center at the common east-edge X, orientation 0. -/
theorem output_bus_channel_snd_eq (T : Trig) (buffer : Buffer) (cfg : Config)
    (tgt : ℚ) (i : ℕ) (port : PortDetail) :
    (output_bus_channel T buffer cfg tgt i port).2 =
      (PortName.out (i + 1),
        ⟨snapPoint cfg.grid (tgt, port.center.2), cfg.wg_width, 0, cfg.layer⟩) :=
  rfl

/-- A snapped point is a pair of integer multiples of the grid pitch. -/
theorem snapPoint_is_grid_multiple (g : ℚ) (p : ℚ × ℚ) :
    ∃ kx ky : ℤ, snapPoint g p = ((kx : ℚ) * g, (ky : ℚ) * g) :=
  ⟨np_round (p.1 / g), np_round (p.2 / g), rfl⟩

/-- Every port of the assembled component comes from one of the four
placement families: output tapers, input tapers, input bus waveguides, or
output bus waveguides. -/
theorem mem_assemble_ports {T : Trig} {buffer : Buffer} {cfg : Config}
    {inD outD : List PortDetail} {m M : ℚ} {nd : PortName × PortDetail}
    (h : nd ∈ (star_coupler_assemble T buffer cfg inD outD m M).ports) :
    (∃ i, i < cfg.n_outputs ∧ nd = (output_channel T buffer cfg i).2) ∨
    (∃ i, i < cfg.n_inputs ∧ nd = (input_channel T buffer cfg i).2) ∨
    (∃ i p, nd = (input_bus_channel T buffer cfg (m - cfg.wg_overlap) i p).2) ∨
    (∃ i p, nd = (output_bus_channel T buffer cfg
        (M + cfg.wg_overlap + cfg.output_wg_length) i p).2) := by
  simp only [star_coupler_assemble, List.mem_append, List.map_map,
    List.mem_map, List.mem_range, Function.comp] at h
  rcases h with ((⟨i, hi, he⟩ | ⟨i, hi, he⟩) | ⟨q, _, he⟩) | ⟨q, _, he⟩
  · exact Or.inl ⟨i, hi, he.symm⟩
  · exact Or.inr (Or.inl ⟨i, hi, he.symm⟩)
  · exact Or.inr (Or.inr (Or.inl ⟨q.1, q.2, he.symm⟩))
  · exact Or.inr (Or.inr (Or.inr ⟨q.1, q.2, he.symm⟩))

/-- A successful build is exactly an assembly for some looked-up port
details and min/max loading-edge coordinates. -/
theorem model_ok_cases {T : Trig} {buffer : Buffer} {cfg : Config}
    {comp : Component} (h : star_coupler_model T buffer cfg = .ok comp) :
    ∃ inD outD m M, comp = star_coupler_assemble T buffer cfg inD outD m M := by
  simp only [star_coupler_model] at h
  split at h
  · simp at h
  · split at h
    · simp at h
    · split at h
      · simp at h
      · split at h
        · simp at h
        · simp only [Except.ok.injEq] at h
          exact ⟨_, _, _, _, h.symm⟩

end ModelLemmas

section LookupLemmas

/-- Dictionary lookup succeeds whenever some entry carries the name. -/
theorem lookupPort_isSome_of_mem {ports : List (PortName × PortDetail)}
    {n : PortName} (hx : ∃ d, (n, d) ∈ ports) :
    ∃ d, lookupPort ports n = some d := by
  obtain ⟨d, hd⟩ := hx
  have h1 : (ports.find? (fun q => q.1 == n)).isSome := by
    rw [List.find?_isSome]
    exact ⟨(n, d), hd, by simp⟩
  obtain ⟨q, hq⟩ := Option.isSome_iff_exists.mp h1
  exact ⟨q.2, by unfold lookupPort; rw [hq]; rfl⟩

/-- A name of the fixed probe list that is present among the taper-stage
ports is present in `ports_info`. -/
theorem lookupPort_mk_info_isSome {ports : List (PortName × PortDetail)}
    {n : PortName} (hnm : n ∈ ports_info_name_list)
    (h : ∃ d, lookupPort ports n = some d) :
    ∃ d, lookupPort (mk_ports_info ports) n = some d := by
  obtain ⟨d, hd⟩ := h
  apply lookupPort_isSome_of_mem
  refine ⟨d, ?_⟩
  unfold mk_ports_info
  rw [List.mem_filterMap]
  exact ⟨n, hnm, by rw [hd]; rfl⟩

/-- A name outside the fixed probe list is never in `ports_info`: the
lookup raises `KeyError`. -/
theorem lookupPort_mk_info_none {ports : List (PortName × PortDetail)}
    {n : PortName} (hnm : n ∉ ports_info_name_list) :
    lookupPort (mk_ports_info ports) n = none := by
  have h1 : (mk_ports_info ports).find? (fun q => q.1 == n) = none := by
    rw [List.find?_eq_none]
    intro x hx
    rw [mk_ports_info, List.mem_filterMap] at hx
    obtain ⟨a, ha, hfa⟩ := hx
    rcases hla : lookupPort ports a with _ | d
    · rw [hla] at hfa
      simp at hfa
    · rw [hla] at hfa
      simp only [Option.map_some', Option.some.injEq] at hfa
      simp only [beq_iff_eq]
      intro hxn
      apply hnm
      rw [← hxn, ← hfa]
      exact ha
  unfold lookupPort
  rw [h1]
  rfl

/-- When every name is present, the bulk lookup succeeds and returns one
detail per name. -/
theorem lookupMany_ok {info : List (PortName × PortDetail)}
    {names : List PortName}
    (hall : ∀ n ∈ names, ∃ d, lookupPort info n = some d) :
    ∃ ds, lookupMany info names = .ok ds ∧ ds.length = names.length := by
  induction names with
  | nil => exact ⟨[], rfl, rfl⟩
  | cons n ns ih =>
    obtain ⟨d, hd⟩ := hall n (List.mem_cons_self n ns)
    obtain ⟨ds, hds, hlen⟩ := ih (fun x hx => hall x (List.mem_cons_of_mem n hx))
    refine ⟨d :: ds, ?_, by simp [hlen]⟩
    unfold lookupMany
    rw [hd, hds]
    rfl

/-- The bulk lookup fails with the `KeyError` of the first missing name. -/
theorem lookupMany_err {info : List (PortName × PortDetail)}
    (pre : List PortName) (n : PortName) (rest : List PortName)
    (hpre : ∀ x ∈ pre, ∃ d, lookupPort info x = some d)
    (hn : lookupPort info n = none) :
    lookupMany info (pre ++ n :: rest) = .error (.keyError n) := by
  induction pre with
  | nil =>
    show lookupMany info (n :: rest) = _
    unfold lookupMany
    rw [hn]
  | cons x xs ih =>
    obtain ⟨d, hd⟩ := hpre x (List.mem_cons_self x xs)
    have h2 := ih (fun y hy => hpre y (List.mem_cons_of_mem x hy))
    show lookupMany info (x :: (xs ++ n :: rest)) = _
    unfold lookupMany
    rw [hd, h2]
    rfl

/-- Python `min` of a nonempty sequence exists. -/
theorem listMin_isSome {l : List ℚ} (h : l ≠ []) : ∃ v, listMin l = some v := by
  cases l with
  | nil => exact absurd rfl h
  | cons x xs => exact ⟨_, rfl⟩

/-- Python `max` of a nonempty sequence exists. -/
theorem listMax_isSome {l : List ℚ} (h : l ≠ []) : ∃ v, listMax l = some v := by
  cases l with
  | nil => exact absurd rfl h
  | cons x xs => exact ⟨_, rfl⟩

/-- The names `o1..o5` are in the fixed probe list. -/
theorem o_mem_info_names {i : ℕ} (h : i < 5) :
    PortName.o (i + 1) ∈ ports_info_name_list := by
  interval_cases i <;> decide

/-- The names `e1..e4` are in the fixed probe list. -/
theorem e_mem_info_names {i : ℕ} (h : i < 4) :
    PortName.e (i + 1) ∈ ports_info_name_list := by
  interval_cases i <;> decide

/-- Channel i of the input side contributes a port named `o{i+1}` to the
taper stage. -/
theorem taper_o_present (T : Trig) (buffer : Buffer) (cfg : Config) {i : ℕ}
    (hi : i < cfg.n_inputs) :
    ∃ d, lookupPort (taper_stage_ports T buffer cfg) (PortName.o (i + 1)) =
      some d := by
  apply lookupPort_isSome_of_mem
  refine ⟨(input_channel T buffer cfg i).2.2, ?_⟩
  unfold taper_stage_ports
  refine List.mem_append_right _ (List.mem_map.mpr ⟨i, List.mem_range.mpr hi, ?_⟩)
  rfl

/-- Channel i of the output side contributes a port named `e{i+1}` to the
taper stage. -/
theorem taper_e_present (T : Trig) (buffer : Buffer) (cfg : Config) {i : ℕ}
    (hi : i < cfg.n_outputs) :
    ∃ d, lookupPort (taper_stage_ports T buffer cfg) (PortName.e (i + 1)) =
      some d := by
  apply lookupPort_isSome_of_mem
  refine ⟨(output_channel T buffer cfg i).2.2, ?_⟩
  unfold taper_stage_ports
  refine List.mem_append_left _ (List.mem_map.mpr ⟨i, List.mem_range.mpr hi, ?_⟩)
  rfl

end LookupLemmas

section ClaimConfigs

/-- The default configuration of `star_coupler`. -/
def default_cfg : Config := {}

/-- The component built by the default configuration under the evaluation
trig and buffer instances. -/
def comp_default : Component :=
  (star_coupler_model T0 buffer0 default_cfg).toOption.getD default

/-- The configuration of claim C1: `n_inputs = 5`, `pitch_inputs = 50`,
`height_rect = 50` (all other parameters at their defaults), whose extreme
channel offset 100 exceeds the half-height 25. -/
def cfg_c1 : Config := { n_inputs := 5, pitch_inputs := 50, height_rect := 50 }

/-- The end-to-end scenario-1 configuration: `n_inputs = 3`,
`n_outputs = 4`, all other parameters (pitches, radius 130, rectangle
80.54 x 152.824, cladding) at their defaults. -/
def cfg_scn1 : Config := { n_inputs := 3, n_outputs := 4 }

/-- A configuration requesting more inputs than the fixed `ports_info`
name list covers. -/
def cfg_six_inputs : Config := { n_inputs := 6 }

/-- The degenerate configuration with no input channels and five output
channels. -/
def cfg_zero_in : Config := { n_inputs := 0, n_outputs := 5 }

end ClaimConfigs

/-- C1 counterexample: at `n_inputs = 5`, `pitch_inputs = 50`,
`height_rect = 50` the build completes successfully (no configuration
error is raised), although the extreme channel offset is 100, beyond the
arc half-height 25. -/
theorem star_coupler_no_config_error_cex :
    (star_coupler_model T0 buffer0 cfg_c1).isOk = true ∧
    y_position_lin cfg_c1.n_inputs cfg_c1.pitch_inputs 4 = 100 ∧
    cfg_c1.height_rect / 2 = 25 ∧ ¬ ((100 : ℚ) ≤ 25) := by
  refine ⟨rfl, ?_, ?_, by norm_num⟩
  · show y_position_lin 5 50 4 = 100
    norm_num [y_position_lin, offsets]
  · show (50 : ℚ) / 2 = 25
    norm_num

/-- C1 amended: the build performs no reachability validation at all —
for every configuration whose channel counts stay within the fixed
`ports_info` name lists (1 ≤ n_inputs ≤ 5, 1 ≤ n_outputs ≤ 4), the build
returns a component without raising, regardless of how far the requested
pitch pushes the channels beyond the arc's half-angle span. -/
theorem star_coupler_no_bounds_validation (T : Trig) (buffer : Buffer)
    (cfg : Config) (h1 : 0 < cfg.n_inputs) (h2 : cfg.n_inputs ≤ 5)
    (h3 : 0 < cfg.n_outputs) (h4 : cfg.n_outputs ≤ 4) :
    ∃ comp, star_coupler_model T buffer cfg = .ok comp := by
  have hin : ∀ n ∈ (List.range cfg.n_inputs).map (fun i => PortName.o (i + 1)),
      ∃ d, lookupPort (mk_ports_info (taper_stage_ports T buffer cfg)) n = some d := by
    intro n hn
    rw [List.mem_map] at hn
    obtain ⟨i, hi, rfl⟩ := hn
    rw [List.mem_range] at hi
    exact lookupPort_mk_info_isSome (o_mem_info_names (lt_of_lt_of_le hi h2))
      (taper_o_present T buffer cfg hi)
  have hout : ∀ n ∈ (List.range cfg.n_outputs).map (fun i => PortName.e (i + 1)),
      ∃ d, lookupPort (mk_ports_info (taper_stage_ports T buffer cfg)) n = some d := by
    intro n hn
    rw [List.mem_map] at hn
    obtain ⟨i, hi, rfl⟩ := hn
    rw [List.mem_range] at hi
    exact lookupPort_mk_info_isSome (e_mem_info_names (lt_of_lt_of_le hi h4))
      (taper_e_present T buffer cfg hi)
  obtain ⟨inD, hinD, hlenIn⟩ := lookupMany_ok hin
  obtain ⟨outD, houtD, hlenOut⟩ := lookupMany_ok hout
  have hneIn : inD.map (fun d => d.center.1) ≠ [] := by
    intro hc
    rw [List.map_eq_nil_iff] at hc
    rw [hc, List.length_nil, List.length_map, List.length_range] at hlenIn
    omega
  have hneOut : outD.map (fun d => d.center.1) ≠ [] := by
    intro hc
    rw [List.map_eq_nil_iff] at hc
    rw [hc, List.length_nil, List.length_map, List.length_range] at hlenOut
    omega
  obtain ⟨m, hm⟩ := listMin_isSome hneIn
  obtain ⟨M, hM⟩ := listMax_isSome hneOut
  refine ⟨star_coupler_assemble T buffer cfg inD outD m M, ?_⟩
  simp only [star_coupler_model, hinD, hm, houtD, hM]

/-- Witness for the amended C1 at the counterexample configuration
itself: the out-of-span build returns a component. -/
theorem star_coupler_no_bounds_validation_witness :
    0 < cfg_c1.n_inputs ∧ cfg_c1.n_inputs ≤ 5 ∧ 0 < cfg_c1.n_outputs ∧
    cfg_c1.n_outputs ≤ 4 ∧
    ∃ comp, star_coupler_model T0 buffer0 cfg_c1 = .ok comp :=
  ⟨by decide, by decide, by decide, by decide,
    star_coupler_no_bounds_validation T0 buffer0 cfg_c1 (by decide) (by decide)
      (by decide) (by decide)⟩

/-- C2 counterexample: on the default build, the bus port `i1` is stored
with orientation exactly 180, which is not below 180 — the canonical-range
invariant [-180, 180) fails for the input bus ports. -/
theorem star_coupler_bus_port_orientation_cex :
    (lookupPort comp_default.ports (PortName.inp 1)).isSome = true ∧
    ((lookupPort comp_default.ports (PortName.inp 1)).getD default).orientation
      = 180 ∧
    ¬ (((lookupPort comp_default.ports
        (PortName.inp 1)).getD default).orientation < 180) := by
  refine ⟨rfl, rfl, ?_⟩
  have h : ((lookupPort comp_default.ports
      (PortName.inp 1)).getD default).orientation = (180 : ℚ) := rfl
  rw [h]
  exact lt_irrefl _

/-- C2 amended: on every successful build, the raw taper ports `o{i}` and
`e{i}` carry a `_normalize_angle`-normalized orientation in [-180, 180),
and every port center is snapped to the design grid; the bus ports,
however, are stored with orientation exactly +180 (`i{i}`) and 0
(`out{i}`), so the input bus ports violate the canonical range. -/
theorem star_coupler_port_invariants (T : Trig) (buffer : Buffer)
    (cfg : Config) (comp : Component)
    (h : star_coupler_model T buffer cfg = .ok comp) :
    ∀ nd ∈ comp.ports,
      (((∃ i, nd.1 = PortName.o i) ∨ ∃ i, nd.1 = PortName.e i) →
          -180 ≤ nd.2.orientation ∧ nd.2.orientation < 180) ∧
      ((∃ i, nd.1 = PortName.inp i) → nd.2.orientation = 180) ∧
      ((∃ i, nd.1 = PortName.out i) → nd.2.orientation = 0) ∧
      ∃ kx ky : ℤ, nd.2.center = ((kx : ℚ) * cfg.grid, (ky : ℚ) * cfg.grid) := by
  obtain ⟨inD, outD, m, M, rfl⟩ := model_ok_cases h
  intro nd hmem
  rcases mem_assemble_ports hmem with ⟨i, hi, he⟩ | ⟨i, hi, he⟩ | ⟨i, p, he⟩ | ⟨i, p, he⟩
  · obtain ⟨pc, r, heq⟩ := output_channel_snd_eq T buffer cfg i
    rw [he, heq]
    refine ⟨fun _ => normalize_angle_mem r, fun hx => ?_, fun hx => ?_,
      snapPoint_is_grid_multiple cfg.grid pc⟩
    · obtain ⟨j, hj⟩ := hx
      exact PortName.noConfusion hj
    · obtain ⟨j, hj⟩ := hx
      exact PortName.noConfusion hj
  · obtain ⟨pc, r, heq⟩ := input_channel_snd_eq T buffer cfg i
    rw [he, heq]
    refine ⟨fun _ => normalize_angle_mem r, fun hx => ?_, fun hx => ?_,
      snapPoint_is_grid_multiple cfg.grid pc⟩
    · obtain ⟨j, hj⟩ := hx
      exact PortName.noConfusion hj
    · obtain ⟨j, hj⟩ := hx
      exact PortName.noConfusion hj
  · rw [he, input_bus_channel_snd_eq]
    refine ⟨fun hx => ?_, fun _ => rfl, fun hx => ?_,
      snapPoint_is_grid_multiple cfg.grid _⟩
    · rcases hx with ⟨j, hj⟩ | ⟨j, hj⟩ <;> exact PortName.noConfusion hj
    · obtain ⟨j, hj⟩ := hx
      exact PortName.noConfusion hj
  · rw [he, output_bus_channel_snd_eq]
    refine ⟨fun hx => ?_, fun hx => ?_, fun _ => rfl,
      snapPoint_is_grid_multiple cfg.grid _⟩
    · rcases hx with ⟨j, hj⟩ | ⟨j, hj⟩ <;> exact PortName.noConfusion hj
    · obtain ⟨j, hj⟩ := hx
      exact PortName.noConfusion hj

/-- Witness for the amended C2 on the default build. -/
theorem star_coupler_port_invariants_witness :
    star_coupler_model T0 buffer0 default_cfg = .ok comp_default ∧
    ∀ nd ∈ comp_default.ports,
      (((∃ i, nd.1 = PortName.o i) ∨ ∃ i, nd.1 = PortName.e i) →
          -180 ≤ nd.2.orientation ∧ nd.2.orientation < 180) ∧
      ((∃ i, nd.1 = PortName.inp i) → nd.2.orientation = 180) ∧
      ((∃ i, nd.1 = PortName.out i) → nd.2.orientation = 0) ∧
      ∃ kx ky : ℤ, nd.2.center =
        ((kx : ℚ) * default_cfg.grid, (ky : ℚ) * default_cfg.grid) :=
  ⟨rfl, star_coupler_port_invariants T0 buffer0 default_cfg comp_default rfl⟩

/-- C3 counterexample: the scenario-1 build contains 30 polygons, not the
23 the claim states — with the default cladding enabled, the seven bus
waveguides also each carry a cladding polygon. -/
theorem star_coupler_polygon_count_cex :
    ((star_coupler_model T0 buffer0 cfg_scn1).toOption.getD
        default).polygons.length = 30 ∧
    ((star_coupler_model T0 buffer0 cfg_scn1).toOption.getD
        default).polygons.length ≠ 23 := by
  constructor
  · rfl
  · intro hc
    have h30 : ((star_coupler_model T0 buffer0 cfg_scn1).toOption.getD
        default).polygons.length = 30 := rfl
    rw [h30] at hc
    exact absurd hc (by decide)

/-- C3 amended: for every trig and buffer collaborator, the scenario-1
build (`n_inputs = 3`, `n_outputs = 4`, default pitches, radius 130,
rectangle 80.54 x 152.824) exposes exactly the ports
e1..e4, o1..o3, i1..i3, out1..out4 and contains exactly 30 polygons:
2 for the slab, 14 for the seven tapers, and 14 for the seven bus
waveguides (core and cladding each, cladding being enabled by default). -/
theorem star_coupler_scenario1_counts (T : Trig) (buffer : Buffer) :
    ((star_coupler_model T buffer cfg_scn1).toOption.getD
        default).ports.map Prod.fst =
      [.e 1, .e 2, .e 3, .e 4, .o 1, .o 2, .o 3, .inp 1, .inp 2, .inp 3,
       .out 1, .out 2, .out 3, .out 4] ∧
    ((star_coupler_model T buffer cfg_scn1).toOption.getD
        default).polygons.length = 30 :=
  ⟨rfl, rfl⟩

/-- C6: on every successful build, all input bus ports `i{i}` share one
common (grid-snapped) X coordinate with orientation 180, all output bus
ports `out{i}` share one common X coordinate with orientation 0, every
input bus rectangle has its west edge at the common
`target_x_end - input_wg_length` and vertical extent exactly `wg_width`,
every output bus rectangle has its east edge at the common `target_x_end`
and vertical extent exactly `wg_width`, and `wg_width` is exactly the
taper's narrow-end (`o1`) width. -/
theorem star_coupler_bus_alignment (T : Trig) (buffer : Buffer)
    (cfg : Config) (comp : Component)
    (h : star_coupler_model T buffer cfg = .ok comp) :
    (∃ xi : ℚ, ∀ j d, (PortName.inp j, d) ∈ comp.ports →
        d.center.1 = xi ∧ d.orientation = 180) ∧
    (∃ xo : ℚ, ∀ j d, (PortName.out j, d) ∈ comp.ports →
        d.center.1 = xo ∧ d.orientation = 0) ∧
    (∀ tgt port, ∃ x2 y0, input_bus_points T cfg tgt port =
        [(tgt - cfg.input_wg_length, y0 - cfg.wg_width / 2),
         (x2, y0 - cfg.wg_width / 2), (x2, y0 + cfg.wg_width / 2),
         (tgt - cfg.input_wg_length, y0 + cfg.wg_width / 2)]) ∧
    (∀ tgt port, ∃ x1 y0, output_bus_points T cfg tgt port =
        [(x1, y0 - cfg.wg_width / 2), (tgt, y0 - cfg.wg_width / 2),
         (tgt, y0 + cfg.wg_width / 2), (x1, y0 + cfg.wg_width / 2)]) ∧
    ((get_taper_polygons_and_ports buffer cfg.taper_length cfg.wg_width
        cfg.taper_wide cfg.clad_layer cfg.clad_offset cfg.layer).2.getD 0
          default).width = cfg.wg_width := by
  obtain ⟨inD, outD, m, M, rfl⟩ := model_ok_cases h
  refine ⟨⟨snapCoord cfg.grid (m - cfg.wg_overlap - cfg.input_wg_length), ?_⟩,
    ⟨snapCoord cfg.grid (M + cfg.wg_overlap + cfg.output_wg_length), ?_⟩,
    fun tgt port => ⟨_, _, rfl⟩, fun tgt port => ⟨_, _, rfl⟩, rfl⟩
  · intro j d hmem
    rcases mem_assemble_ports hmem with ⟨i, hi, he⟩ | ⟨i, hi, he⟩ | ⟨i, p, he⟩ | ⟨i, p, he⟩
    · obtain ⟨pc, r, heq⟩ := output_channel_snd_eq T buffer cfg i
      rw [heq] at he
      exact PortName.noConfusion (congrArg Prod.fst he)
    · obtain ⟨pc, r, heq⟩ := input_channel_snd_eq T buffer cfg i
      rw [heq] at he
      exact PortName.noConfusion (congrArg Prod.fst he)
    · rw [input_bus_channel_snd_eq, Prod.mk.injEq] at he
      obtain ⟨-, hd⟩ := he
      constructor
      · rw [hd]
        rfl
      · rw [hd]
    · rw [output_bus_channel_snd_eq] at he
      exact PortName.noConfusion (congrArg Prod.fst he)
  · intro j d hmem
    rcases mem_assemble_ports hmem with ⟨i, hi, he⟩ | ⟨i, hi, he⟩ | ⟨i, p, he⟩ | ⟨i, p, he⟩
    · obtain ⟨pc, r, heq⟩ := output_channel_snd_eq T buffer cfg i
      rw [heq] at he
      exact PortName.noConfusion (congrArg Prod.fst he)
    · obtain ⟨pc, r, heq⟩ := input_channel_snd_eq T buffer cfg i
      rw [heq] at he
      exact PortName.noConfusion (congrArg Prod.fst he)
    · rw [input_bus_channel_snd_eq] at he
      exact PortName.noConfusion (congrArg Prod.fst he)
    · rw [output_bus_channel_snd_eq, Prod.mk.injEq] at he
      obtain ⟨-, hd⟩ := he
      constructor
      · rw [hd]
        rfl
      · rw [hd]

/-- Witness for C6 on the default build. -/
theorem star_coupler_bus_alignment_witness :
    star_coupler_model T0 buffer0 default_cfg = .ok comp_default ∧
    ((∃ xi : ℚ, ∀ j d, (PortName.inp j, d) ∈ comp_default.ports →
        d.center.1 = xi ∧ d.orientation = 180) ∧
    (∃ xo : ℚ, ∀ j d, (PortName.out j, d) ∈ comp_default.ports →
        d.center.1 = xo ∧ d.orientation = 0) ∧
    (∀ tgt port, ∃ x2 y0, input_bus_points T0 default_cfg tgt port =
        [(tgt - default_cfg.input_wg_length, y0 - default_cfg.wg_width / 2),
         (x2, y0 - default_cfg.wg_width / 2), (x2, y0 + default_cfg.wg_width / 2),
         (tgt - default_cfg.input_wg_length, y0 + default_cfg.wg_width / 2)]) ∧
    (∀ tgt port, ∃ x1 y0, output_bus_points T0 default_cfg tgt port =
        [(x1, y0 - default_cfg.wg_width / 2), (tgt, y0 - default_cfg.wg_width / 2),
         (tgt, y0 + default_cfg.wg_width / 2), (x1, y0 + default_cfg.wg_width / 2)]) ∧
    ((get_taper_polygons_and_ports buffer0 default_cfg.taper_length
        default_cfg.wg_width default_cfg.taper_wide default_cfg.clad_layer
        default_cfg.clad_offset default_cfg.layer).2.getD 0
          default).width = default_cfg.wg_width) :=
  ⟨rfl, star_coupler_bus_alignment T0 buffer0 default_cfg comp_default rfl⟩

/-- C10 counterexample: at `n_inputs = 0` with `n_outputs = 5` (a
configuration with `n_outputs` greater than 4), the build fails not with a
`KeyError` but with the `ValueError` of `min()` applied to an empty
sequence. -/
theorem star_coupler_overflow_keyerror_cex :
    star_coupler_model T0 buffer0 cfg_zero_in = .error .valueErrorEmptyMin ∧
    BuildError.isKeyErr .valueErrorEmptyMin = false :=
  ⟨rfl, rfl⟩

/-- C10 amended: for every `n_inputs > 5` the build fails with the
`KeyError` of `o6` in the input bus-waveguide stage; for every
`n_outputs > 4` with `1 ≤ n_inputs ≤ 5` it fails with the `KeyError` of
`e5` in the output bus-waveguide stage (the degenerate `n_inputs = 0`
case instead fails earlier with `ValueError` from `min` of an empty
sequence). -/
theorem star_coupler_overflow_keyerror (T : Trig) (buffer : Buffer)
    (cfg : Config) :
    (5 < cfg.n_inputs →
      star_coupler_model T buffer cfg = .error (.keyError (.o 6))) ∧
    (0 < cfg.n_inputs → cfg.n_inputs ≤ 5 → 4 < cfg.n_outputs →
      star_coupler_model T buffer cfg = .error (.keyError (.e 5))) := by
  constructor
  · intro h5
    obtain ⟨k, hk⟩ : ∃ k, cfg.n_inputs = 6 + k := ⟨cfg.n_inputs - 6, by omega⟩
    have hsplit : (List.range cfg.n_inputs).map (fun i => PortName.o (i + 1)) =
        ([PortName.o 1, .o 2, .o 3, .o 4, .o 5] ++ PortName.o 6 ::
          ((List.range k).map fun j => PortName.o (6 + j + 1))) := by
      rw [hk, List.range_add, List.map_append, List.map_map]
      rfl
    have herr : lookupMany (mk_ports_info (taper_stage_ports T buffer cfg))
        ((List.range cfg.n_inputs).map fun i => PortName.o (i + 1)) =
          .error (.keyError (.o 6)) := by
      rw [hsplit]
      apply lookupMany_err
      · intro x hx
        fin_cases hx
        · exact lookupPort_mk_info_isSome (by decide)
            (taper_o_present T buffer cfg (i := 0) (by omega))
        · exact lookupPort_mk_info_isSome (by decide)
            (taper_o_present T buffer cfg (i := 1) (by omega))
        · exact lookupPort_mk_info_isSome (by decide)
            (taper_o_present T buffer cfg (i := 2) (by omega))
        · exact lookupPort_mk_info_isSome (by decide)
            (taper_o_present T buffer cfg (i := 3) (by omega))
        · exact lookupPort_mk_info_isSome (by decide)
            (taper_o_present T buffer cfg (i := 4) (by omega))
      · exact lookupPort_mk_info_none (by decide)
    simp only [star_coupler_model, herr]
  · intro h1 h2 h4
    have hin : ∀ n ∈ (List.range cfg.n_inputs).map (fun i => PortName.o (i + 1)),
        ∃ d, lookupPort (mk_ports_info (taper_stage_ports T buffer cfg)) n = some d := by
      intro n hn
      rw [List.mem_map] at hn
      obtain ⟨i, hi, rfl⟩ := hn
      rw [List.mem_range] at hi
      exact lookupPort_mk_info_isSome (o_mem_info_names (lt_of_lt_of_le hi h2))
        (taper_o_present T buffer cfg hi)
    obtain ⟨inD, hinD, hlenIn⟩ := lookupMany_ok hin
    have hneIn : inD.map (fun d => d.center.1) ≠ [] := by
      intro hc
      rw [List.map_eq_nil_iff] at hc
      rw [hc, List.length_nil, List.length_map, List.length_range] at hlenIn
      omega
    obtain ⟨m, hm⟩ := listMin_isSome hneIn
    obtain ⟨k, hk⟩ : ∃ k, cfg.n_outputs = 5 + k := ⟨cfg.n_outputs - 5, by omega⟩
    have hsplit : (List.range cfg.n_outputs).map (fun i => PortName.e (i + 1)) =
        ([PortName.e 1, .e 2, .e 3, .e 4] ++ PortName.e 5 ::
          ((List.range k).map fun j => PortName.e (5 + j + 1))) := by
      rw [hk, List.range_add, List.map_append, List.map_map]
      rfl
    have herr : lookupMany (mk_ports_info (taper_stage_ports T buffer cfg))
        ((List.range cfg.n_outputs).map fun i => PortName.e (i + 1)) =
          .error (.keyError (.e 5)) := by
      rw [hsplit]
      apply lookupMany_err
      · intro x hx
        fin_cases hx
        · exact lookupPort_mk_info_isSome (by decide)
            (taper_e_present T buffer cfg (i := 0) (by omega))
        · exact lookupPort_mk_info_isSome (by decide)
            (taper_e_present T buffer cfg (i := 1) (by omega))
        · exact lookupPort_mk_info_isSome (by decide)
            (taper_e_present T buffer cfg (i := 2) (by omega))
        · exact lookupPort_mk_info_isSome (by decide)
            (taper_e_present T buffer cfg (i := 3) (by omega))
      · exact lookupPort_mk_info_none (by decide)
    simp only [star_coupler_model, hinD, hm, herr]

/-- Witness for C10 at `n_inputs = 6`: the build fails with the `KeyError`
of `o6`. -/
theorem star_coupler_overflow_keyerror_witness :
    5 < cfg_six_inputs.n_inputs ∧
    star_coupler_model T0 buffer0 cfg_six_inputs = .error (.keyError (.o 6)) :=
  ⟨by decide,
    (star_coupler_overflow_keyerror T0 buffer0 cfg_six_inputs).1 (by decide)⟩


end StarCoupler
